import Mathlib

/-!
Verification development for the network-tap dashboard orchestration engine
(services/agent): a shallow embedding of the Tab state store, the run
executor, the orchestration facade and the process watcher, with theorems
about the start/stop/exit protocol, log sequencing, persistence recovery
and profile build/validation.

Conventions of the embedding:
* Python dicts keyed by strings become association lists (List (String x _))
  with lookup, in-place update, insert and pop helpers mirroring dict
  semantics (insertion order preserved, single key occurrence).
* Async methods become pure state-transition functions on SysState; the
  asyncio locks serialize each operation, so one operation is one step.
* Timestamps (utcnow_iso) are threaded in as explicit String arguments.
* Disk and journal writes (save_state, write_capture_metadata) and event
  broadcasts do not alter the Tab/Run state and are not represented.
* Dynamic JSON settings values become the SVal type; Python truthiness,
  int(), float() and str() conversions are modelled explicitly.
-/

namespace NetTap

/-- Association list lookup mirroring Python dict access by key. -/
def lookupKey (k : String) : List (String × β) → Option β
  | [] => none
  | (k0, v) :: rest => if k0 = k then some v else lookupKey k rest

/-- Update the value stored at a key in place, mirroring dict item assignment
on an existing key; a missing key leaves the list unchanged. -/
def updateEntry (k : String) (f : β → β) : List (String × β) → List (String × β)
  | [] => []
  | (k0, v) :: rest => if k0 = k then (k0, f v) :: rest else (k0, v) :: updateEntry k f rest

/-- Dict item assignment: replace in place when the key exists, else append. -/
def insertEntry (k : String) (v : β) : List (String × β) → List (String × β)
  | [] => [(k, v)]
  | (k0, v0) :: rest => if k0 = k then (k0, v) :: rest else (k0, v0) :: insertEntry k v rest

/-- Dict pop: remove the entry with the given key, if present (a dict holds
each key at most once, so removing every occurrence is the same operation). -/
def eraseKey (k : String) (l : List (String × β)) : List (String × β) :=
  l.filter (fun p => ¬ (p.1 = k))

/-- One log line of a Tab (tab_models.LogEntry). -/
structure LogEntry where
  seq : Nat
  timestamp : String
  message : String
  tab_id : String
  interface : Option String := none
deriving DecidableEq

/-- Run record of a Tab (tab_models.Run); fields not touched by the claims
(commands, filenames, capture ids, pids, ring parameters) are omitted. -/
structure Run where
  id : String
  profile_id : Option String := none
  started_utc : String := ""
  finished_utc : Option String := none
  exit_code : Option Int := none
  exit_codes : Option (List (Option Int)) := none
  error : Option String := none
deriving DecidableEq

/-- A test tab (tab_models.Tab); the profile cache field is omitted. -/
structure Tab where
  id : String
  title : String
  status : String
  created_utc : String
  updated_utc : String
  profile_id : Option String := none
  run : Option Run := none
  logs : List LogEntry := []
  log_seq : Nat := 0
  last_message : Option String := none
deriving DecidableEq

/-- One spawned capture process bound to an interface
(process_manager.InterfaceProcess); the returncode attribute of the
underlying asyncio process object is carried alongside. -/
structure IProc where
  interface : String
  capture_id : String := ""
  pid : Int
  returncode : Option Int := none
deriving DecidableEq

/-- Executor-side record of one running test (process_manager.RunningTest);
ring parameters and the metadata file path are omitted. -/
structure RunningTest where
  run_id : String
  interfaces : List String := []
  processes : List IProc
deriving DecidableEq

/-- Combined state of the TabManager (tabs dict) and the RunExecutor
(active runs dict), the two mutual-exclusion domains of the engine. -/
structure SysState where
  tabs : List (String × Tab)
  runs : List (String × RunningTest)
deriving DecidableEq

/-- Python str.strip() with no argument: drop whitespace from both ends. -/
def pyStrip (s : String) : String :=
  String.mk
    (((s.toList.dropWhile Char.isWhitespace).reverse.dropWhile Char.isWhitespace).reverse)

/-- Python str.lower() on the ascii subset the code touches. -/
def strLower (s : String) : String :=
  String.mk (s.toList.map Char.toLower)

/-- Python str.upper() on the ascii subset the code touches. -/
def strUpper (s : String) : String :=
  String.mk (s.toList.map Char.toUpper)

/-- Deque append with maxlen: keep the last max entries
(collections.deque(maxlen=max) semantics). -/
def capAppend (max : Nat) (logs : List LogEntry) (e : LogEntry) : List LogEntry :=
  let l := logs ++ [e]
  l.drop (l.length - max)

/-- TabManager.append_log applied to one Tab object: assign the next
sequence number, append to the capped buffer, update last message and the
updated timestamp. -/
def appendLogTab (max : Nat) (t : Tab) (msg : String) (ifc : Option String) (now : String) : Tab :=
  let seq := t.log_seq + 1
  let entry : LogEntry :=
    { seq := seq, timestamp := now, message := msg, tab_id := t.id, interface := ifc }
  { t with log_seq := seq, logs := capAppend max t.logs entry,
           last_message := some msg, updated_utc := now }

/-- TabManager.append_log on the system state: a missing tab id is a no-op
(the method returns None), otherwise the tab is updated in place. -/
def appendLogSys (max : Nat) (s : SysState) (tab_id msg : String)
    (ifc : Option String) (now : String) : SysState :=
  { s with tabs := updateEntry tab_id (fun t => appendLogTab max t msg ifc now) s.tabs }

/-- Title defaulting used by TabManager.create_tab:
(title or "").strip() or "Neuer Test". -/
def defaultTitle (title : Option String) : String :=
  let t := pyStrip (title.getD "")
  if t = "" then "Neuer Test" else t

/-- TabManager.create_tab: fresh idle tab with defaulted title, empty capped
log, sequence counter zero; registered under the generated id. -/
def createTab (s : SysState) (tab_id now : String)
    (title profile_id : Option String) : Tab × SysState :=
  let tab : Tab :=
    { id := tab_id, title := defaultTitle title, status := "idle",
      created_utc := now, updated_utc := now, profile_id := profile_id,
      run := none, logs := [], log_seq := 0, last_message := none }
  (tab, { s with tabs := insertEntry tab_id tab s.tabs })

/-- TabManager.update_tab: a missing tab raises TabNotFoundError (none);
title, when supplied, is stripped and defaulted; profile id, when supplied,
replaces the old one; the updated timestamp is refreshed. -/
def updateTab (s : SysState) (tab_id : String)
    (title profile_id : Option String) (now : String) : Option (Tab × SysState) :=
  match lookupKey tab_id s.tabs with
  | none => none
  | some tab =>
    let tab1 :=
      match title with
      | none => tab
      | some t =>
        let t1 := pyStrip t
        { tab with title := if t1 = "" then "Neuer Test" else t1 }
    let tab2 :=
      match profile_id with
      | none => tab1
      | some p => { tab1 with profile_id := some p }
    let tab3 := { tab2 with updated_utc := now }
    some (tab3, { s with tabs := updateEntry tab_id (fun _ => tab3) s.tabs })

/-- Restart cleanup of TabManager._load_state: a tab recovered in a
running or starting status is forced back to idle with its run cleared. -/
def loadTabCleanup (tab : Tab) : Tab :=
  if tab.status = "running" ∨ tab.status = "starting" then
    { tab with status := "idle", run := none }
  else tab

/-- TabManager._load_state over the list of successfully parsed stored tabs
(entries that fail to parse are skipped before this point). -/
def loadState (stored : List Tab) : List Tab :=
  stored.map loadTabCleanup

/-- Outcome of TestExecutionManager.delete_tab. -/
inductive DeleteResult
  | conflict
  | notFound
  | deleted
deriving DecidableEq

/-- TestExecutionManager.delete_tab: the facade reads the executor active
set, then TabManager.delete_tab rejects a running tab id with
TestAlreadyRunningError before touching the map, raises TabNotFoundError on
a missing id, and otherwise pops the tab. -/
def deleteTab (s : SysState) (tab_id : String) : DeleteResult × SysState :=
  if (lookupKey tab_id s.runs).isSome then (.conflict, s)
  else
    match lookupKey tab_id s.tabs with
    | none => (.notFound, s)
    | some _ => (.deleted, { s with tabs := eraseKey tab_id s.tabs })

/-- TestExecutionManager.list_tabs: the tab objects in insertion order. -/
def listTabs (s : SysState) : List Tab :=
  s.tabs.map (fun p => p.2)

/-- Truthiness of an optional error string: Python "if error:" is false for
None and for the empty string. -/
def errTruthy : Option String → Bool
  | none => false
  | some s => s ≠ ""

/-- The aggregated exit-code test of the finalization paths:
any(code and code != 0 for code in exit_codes); a None code and a zero code
are both falsy and count as clean. -/
def anyNonzero (codes : List (Option Int)) : Bool :=
  codes.any (fun c => match c with | some v => v ≠ 0 | none => false)

/-- Status rule of TestExecutionManager._handle_interface_process_exit:
failed when the error text is set or some exit code is non-clean, else
completed. -/
def finalizeStatus (codes : List (Option Int)) (error : Option String) : String :=
  if errTruthy error then "failed"
  else if anyNonzero codes then "failed"
  else "completed"

/-- Status rule of the explicit-stop finalization in
TestExecutionManager.stop_test (no error argument exists on that path). -/
def stopFinalizeStatus (codes : List (Option Int)) : String :=
  if anyNonzero codes then "failed" else "completed"

/-- RunExecutor.check_all_processes_done: the run is done exactly when every
tracked process has a returncode; the codes are returned with None for
not-yet-exited entries. -/
def checkAllProcessesDone (s : SysState) (tab_id : String) : Bool × List (Option Int) :=
  match lookupKey tab_id s.runs with
  | none => (false, [])
  | some st =>
    (st.processes.all (fun p => p.returncode.isSome), st.processes.map (fun p => p.returncode))

/-- TestExecutionManager._handle_interface_process_exit: append the per
process exit log line, then check completion; when all siblings reported
and the run is still the live, unfinalized record for the tab, aggregate the
exit codes, set the status, deregister the run and append the final log
line. The stop journal row and the broadcasts carry no Tab/Run state. -/
def handleInterfaceProcessExit (max : Nat) (s : SysState) (tab_id run_id : String)
    (interface : Option String) (error : Option String) (now : String) : SysState :=
  let s1 := appendLogSys max s tab_id "tcpdump beendet" interface now
  let done := checkAllProcessesDone s1 tab_id
  if done.1 then
    match lookupKey tab_id s1.tabs with
    | none => s1
    | some tab =>
      match tab.run with
      | none => s1
      | some run =>
        if run.id ≠ run_id then s1
        else if run.finished_utc.isSome then s1
        else
          let codes := done.2
          let run1 :=
            { run with finished_utc := some now, exit_codes := some codes,
                       exit_code := codes.head?.join, error := error }
          let status := finalizeStatus codes error
          let s2 :=
            { s1 with
              tabs := updateEntry tab_id
                (fun t => { t with run := some run1, status := status }) s1.tabs,
              runs := eraseKey tab_id s1.runs }
          appendLogSys max s2 tab_id "Testlauf beendet" none now
  else s1

/-- Spawn loop of RunExecutor.start_test: interfaces are spawned in order;
each list entry is the OS outcome for one interface (some process, or none
for FileNotFoundError / PermissionError / OSError). On the first failure the
error value carries exactly the processes spawned so far, which
_cleanup_started_processes kills before the error propagates. -/
def spawnLoop : List (Option IProc) → Except (List IProc) (List IProc)
  | [] => .ok []
  | none :: _ => .error []
  | some p :: rest =>
    match spawnLoop rest with
    | .ok ps => .ok (p :: ps)
    | .error killed => .error (p :: killed)

/-- TestExecutionManager._mark_run_failed with the empty run id argument used
on the start failure path (the empty id disables the identity guard): append
the failure log line, deregister any run, close the placeholder run with a
None exit code and the error text, and mark the tab failed. -/
def markRunFailed (max : Nat) (s : SysState) (tab_id msg now : String) : SysState :=
  let s1 := appendLogSys max s tab_id msg none now
  match lookupKey tab_id s1.tabs with
  | none => s1
  | some tab =>
    match tab.run with
    | none => s1
    | some run =>
      let run1 :=
        { run with finished_utc := some now, exit_codes := some [none],
                   exit_code := none, error := some msg }
      { s1 with
        tabs := updateEntry tab_id
          (fun t => { t with run := some run1, status := "failed" }) s1.tabs,
        runs := eraseKey tab_id s1.runs }

/-- Outcome of TestExecutionManager.start_test as seen by the caller. -/
inductive StartResult
  | notFound
  | alreadyRunning
  | execError (killedPids : List Int)
  | started
deriving DecidableEq

/-- TestExecutionManager.start_test composed with RunExecutor.start_test:
validate the tab exists, reject a tab id with an open run
(TestAlreadyRunningError), mark the tab starting with a placeholder run,
re-check inside the executor, spawn the interfaces in order (all-or-nothing:
a failure kills the spawned siblings, marks the run failed and propagates
TestExecutionError), then register the run, mark the tab running and append
the start log line. Watcher creation, journal rows, warning log lines and
the duration timer carry no Tab/Run state transitions of their own. -/
def startTest (max : Nat) (s : SysState) (tab_id : String)
    (outcomes : List (Option IProc)) (run_id now : String) : StartResult × SysState :=
  match lookupKey tab_id s.tabs with
  | none => (.notFound, s)
  | some _ =>
    if (lookupKey tab_id s.runs).isSome then (.alreadyRunning, s)
    else
      let s1 :=
        { s with
          tabs := updateEntry tab_id
            (fun t => { t with status := "starting",
                               run := some { id := "", started_utc := now } }) s.tabs }
      if (lookupKey tab_id s1.runs).isSome then
        (.execError [], markRunFailed max s1 tab_id "Test laeuft bereits" now)
      else
        match spawnLoop outcomes with
        | .error killed =>
          (.execError (killed.map (fun p : IProc => p.pid)),
           markRunFailed max s1 tab_id "Start fehlgeschlagen" now)
        | .ok procs =>
          let s2 :=
            { s1 with
              runs := insertEntry tab_id
                { run_id := run_id, interfaces := procs.map (fun p : IProc => p.interface),
                  processes := procs } s1.runs }
          let s3 :=
            { s2 with
              tabs := updateEntry tab_id
                (fun t => { t with status := "running",
                                   run := some { id := run_id, started_utc := now } }) s2.tabs }
          (.started, appendLogSys max s3 tab_id "Testlauf gestartet" none now)

/-- Executor half of the stop protocol (RunExecutor.stop_test): a tab id
with no open run returns stopped=False and changes nothing; otherwise the
run is popped first to prevent re-entry, the watchers are cancelled, the
termination protocol runs (external process effects), the stop log lines
are appended and the recorded returncodes are collected. -/
def stopTestExec (max : Nat) (s : SysState) (tab_id now : String) :
    Option (String × List (Option Int)) × SysState :=
  match lookupKey tab_id s.runs with
  | none => (none, s)
  | some st =>
    let s1 := { s with runs := eraseKey tab_id s.runs }
    let s2 := appendLogSys max s1 tab_id "Stoppsignal an tcpdump senden" none now
    let codes := st.processes.map (fun p => p.returncode)
    let s3 := appendLogSys max s2 tab_id "Testlauf gestoppt" none now
    (some (st.run_id, codes), s3)

/-- Outcome of TestExecutionManager.stop_test. -/
inductive StopResult
  | notFound
  | snapshot (t : Tab)
deriving DecidableEq

/-- TestExecutionManager.stop_test: when the executor reports not running,
the stored tab snapshot is returned unchanged (TabNotFoundError when the tab
is also missing); when a run was stopped and the exit path has not already
finalized it, stop itself closes the run with the collected exit codes and
sets the status by the stop rule. -/
def stopTest (max : Nat) (s : SysState) (tab_id now : String) : StopResult × SysState :=
  match stopTestExec max s tab_id now with
  | (none, s1) =>
    match lookupKey tab_id s1.tabs with
    | some t => (.snapshot t, s1)
    | none => (.notFound, s1)
  | (some stopped, s1) =>
    match lookupKey tab_id s1.tabs with
    | none => (.notFound, s1)
    | some tab =>
      match tab.run with
      | some run =>
        if run.finished_utc.isSome then (.snapshot tab, s1)
        else
          let codes := stopped.2
          let run1 :=
            { run with finished_utc := some now, exit_codes := some codes,
                       exit_code := codes.head?.join }
          let tab1 := { tab with run := some run1, status := stopFinalizeStatus codes }
          (.snapshot tab1,
           { s1 with tabs := updateEntry tab_id (fun _ => tab1) s1.tabs })
      | none => (.snapshot tab, s1)

/-- Event observed by the watcher at one readline suspension point of
process_manager.watch_interface_process. -/
inductive ReadEv
  | line (msg : String)
  | eof
  | ioError
  | exn
  | cancelled
deriving DecidableEq

/-- Event observed by the watcher at the process.wait suspension point. -/
inductive WaitEv
  | exited (rc : Int)
  | cancelled
  | failed (emsg : String)
deriving DecidableEq

/-- Externally visible action of one watcher run: a log callback call, an
exit callback call, or the re-raise of the cancellation. -/
inductive WOut
  | log (msg : String)
  | exitCb (rc : Option Int) (err : Option String)
  | raisedCancel
deriving DecidableEq

/-- Output-streaming loop of watch_interface_process: each line becomes one
log callback; EOF, an I/O error or any other read error breaks the loop;
CancelledError is re-raised immediately and suppresses everything after.
The Bool records whether the loop ended by cancellation. An exhausted script
is read as EOF. -/
def watchLoop : List ReadEv → List WOut × Bool
  | [] => ([], false)
  | .line msg :: rest =>
    let r := watchLoop rest
    (.log msg :: r.1, r.2)
  | .eof :: _ => ([], false)
  | .ioError :: _ => ([], false)
  | .exn :: _ => ([], false)
  | .cancelled :: _ => ([.raisedCancel], true)

/-- process_manager.watch_interface_process: stream output, then await the
process exit and invoke the exit callback once with the returncode; a
cancellation observed at a readline or at the wait re-raises without
invoking the exit callback; an OSError / IOError or other exception around
the wait reports the current returncode attribute with the error text.
Exceptions raised by the callbacks themselves are outside this model. -/
def watchInterfaceProcess (script : List ReadEv) (w : WaitEv)
    (rcAttr : Option Int) : List WOut :=
  let r := watchLoop script
  if r.2 then r.1
  else
    r.1 ++
      (match w with
       | .exited rc => [.exitCb (some rc) none]
       | .cancelled => [.raisedCancel]
       | .failed emsg => [.log "I/O-Fehler beim Wachen", .exitCb rcAttr (some emsg)])

/-- True for the re-raised cancellation marker. -/
def isCancelMark : WOut → Bool
  | .raisedCancel => true
  | _ => false

/-- True for an exit callback invocation. -/
def isExitReport : WOut → Bool
  | .exitCb _ _ => true
  | _ => false

/-- Dynamic JSON value of a profile settings dict: null, bool, int, float
(modelled exactly as a rational), string or list. -/
inductive SVal
  | nullV
  | boolV (b : Bool)
  | intV (n : Int)
  | ratV (q : Rat)
  | strV (s : String)
  | listV (xs : List SVal)

/-- A profile settings dict. -/
abbrev Settings := List (String × SVal)

/-- Python settings.get(key): None when the key is absent. -/
def getS (settings : Settings) (k : String) : SVal :=
  (lookupKey k settings).getD .nullV

/-- Python settings.get(key, default). -/
def getSD (settings : Settings) (k : String) (d : SVal) : SVal :=
  (lookupKey k settings).getD d

/-- Python truthiness of a JSON value. -/
def SVal.truthy : SVal → Bool
  | .nullV => false
  | .boolV b => b
  | .intV n => n ≠ 0
  | .ratV q => q ≠ 0
  | .strV s => s ≠ ""
  | .listV xs => ¬ xs.isEmpty

/-- Python value-level or: the first operand when truthy, else the second. -/
def pyOr (a b : SVal) : SVal :=
  if a.truthy then a else b

/-- Decimal digit run to a number; none when empty or non-digit. -/
def digitsToNat (cs : List Char) : Option Nat :=
  if cs.isEmpty then none
  else if cs.all Char.isDigit then
    some (cs.foldl (fun a c => a * 10 + (c.toNat - 48)) 0)
  else none

/-- Python int(string): optional surrounding whitespace and sign followed by
decimal digits; anything else raises ValueError (none). Underscore digit
separators are not modelled. -/
def parseIntString (s : String) : Option Int :=
  match (pyStrip s).toList with
  | '-' :: rest => (digitsToNat rest).map (fun n => -(n : Int))
  | '+' :: rest => (digitsToNat rest).map (fun n => (n : Int))
  | cs => (digitsToNat cs).map (fun n => (n : Int))

/-- Python int(value): ints pass through, bools become 0/1, floats truncate
toward zero, numeric strings parse; None and lists raise (none). -/
def pyInt : SVal → Option Int
  | .intV n => some n
  | .boolV b => some (if b then 1 else 0)
  | .ratV q => some (q.num.tdiv (q.den : Int))
  | .strV s => parseIntString s
  | .nullV => none
  | .listV _ => none

/-- Python float(value); float strings are modelled on their integral
subset, which is all the build code distinguishes. -/
def pyFloat : SVal → Option Rat
  | .intV n => some (n : Rat)
  | .boolV b => some (if b then 1 else 0)
  | .ratV q => some q
  | .strV s => (parseIntString s).map (fun n => (n : Rat))
  | .nullV => none
  | .listV _ => none

/-- Python str(value), as used for f-string interpolation of settings
values; the list rendering is abstracted. -/
def pyStr : SVal → String
  | .nullV => "None"
  | .boolV b => if b then "True" else "False"
  | .intV n => toString n
  | .ratV q => toString q
  | .strV s => s
  | .listV _ => "[...]"

/-- Python equality of a JSON value with an int literal (True == 1). -/
def svEqInt (v : SVal) (n : Int) : Bool :=
  match v with
  | .intV m => m = n
  | .boolV b => (if b then (1 : Int) else 0) = n
  | .ratV q => q = (n : Rat)
  | _ => false

/-- Python equality of a JSON value with a string literal. -/
def svEqStr (v : SVal) (t : String) : Bool :=
  match v with
  | .strV s => s = t
  | _ => false

/-- filter_builder.validate_interface_name: nonempty, at most 15 characters,
alphanumerics plus dot, underscore and dash only. -/
def validate_interface_name (name : String) : Bool :=
  name ≠ "" && name.length ≤ 15 &&
    name.toList.all (fun c => c.isAlphanum || c = '.' || c = '_' || c = '-')

/-- Hardcoded fallback interface (run_executor.DEFAULT_INTERFACE). -/
def DEFAULT_INTERFACE : String := "eth0"

/-- RunExecutor._select_interfaces: the list from settings.interfaces with
each entry validated (a warning per invalid entry), falling back to the
single settings.interface, falling back to the hardcoded default eth0; the
fallback steps append their own warnings. Returns (interfaces, warnings). -/
def selectInterfaces (settings : Settings) : List String × List String :=
  let fromList :=
    match getS settings "interfaces" with
    | .listV items =>
      if items.isEmpty then ([], [])
      else
        items.foldl
          (fun (acc : List String × List String) it =>
            match it with
            | .strV s =>
              if pyStrip s ≠ "" then
                if validate_interface_name (pyStrip s) then (acc.1 ++ [pyStrip s], acc.2)
                else (acc.1, acc.2 ++ ["Ungueltiger Interface-Name ignoriert."])
              else acc
            | _ => acc)
          ([], [])
    | _ => ([], [])
  if ¬ fromList.1.isEmpty then fromList
  else
    match getS settings "interface" with
    | .strV s =>
      if pyStrip s ≠ "" then
        if validate_interface_name (pyStrip s) then ([pyStrip s], fromList.2)
        else
          ([DEFAULT_INTERFACE],
           fromList.2 ++ ["Ungueltiger Interface-Name, verwende eth0.",
                          "Kein Interface angegeben, verwende eth0."])
      else ([DEFAULT_INTERFACE], fromList.2 ++ ["Kein Interface angegeben, verwende eth0."])
    | _ => ([DEFAULT_INTERFACE], fromList.2 ++ ["Kein Interface angegeben, verwende eth0."])

/-- RunExecutor._coerce_positive_int: int() failure or a too-small value
falls back to the default with a warning. -/
def coercePositiveInt (value : SVal) (default minimum : Int) (fieldName : String) :
    Int × List String :=
  match pyInt value with
  | none => (default, [fieldName ++ " ungueltig, verwende " ++ toString default ++ "."])
  | some i =>
    if i < minimum then
      (default, [fieldName ++ " zu klein, verwende " ++ toString default ++ "."])
    else (i, [])

/-- Ring size unit multiplier table of _calculate_ring_file_size_mb; any
unknown or non-string unit maps to 1. -/
def unitMultiplier : SVal → Rat
  | .strV "bytes" => 1 / (1024 * 1024)
  | .strV "kilobytes" => 1 / 1024
  | .strV "megabytes" => 1
  | .strV "gigabytes" => 1024
  | _ => 1

/-- Python round() on a float value: round half to even. -/
def roundHalfEven (q : Rat) : Int :=
  let f := ⌊q⌋
  let r := q - (f : Rat)
  if r < 1 / 2 then f
  else if 1 / 2 < r then f + 1
  else if 2 ∣ f then f else f + 1

/-- RunExecutor._calculate_ring_file_size_mb: value+unit schema with float
parsing, positivity check, unit multiplier, floor at 1 MB and half-even
rounding; legacy ringFileSizeMB fallback through _coerce_positive_int;
default 100 MB. Returns (size in MB, warnings). -/
def calculateRingFileSizeMB (settings : Settings) : Int × List String :=
  match getS settings "ringFileSizeValue" with
  | .nullV =>
    match getS settings "ringFileSizeMB" with
    | .nullV => (100, [])
    | legacy => coercePositiveInt legacy 100 1 "Ringpuffergroesse"
  | v =>
    match pyFloat v with
    | none => (100, ["Ringpuffergroesse ungueltig, verwende 100 MB."])
    | some value =>
      if value ≤ 0 then (100, ["Ringpuffergroesse muss positiv sein, verwende 100 MB."])
      else
        let mult := unitMultiplier (getSD settings "ringFileSizeUnit" (.strV "megabytes"))
        (max 1 (roundHalfEven (value * mult)), [])

/-- RunExecutor._determine_snap_length: headerOnly overrides through the
coercion helper (default 96, minimum 64); otherwise a truthy snapLength is
converted with a bare int() that raises ValueError on non-numeric values;
otherwise 0 (full packet). -/
def determineSnapLength (settings : Settings) : Except String (Int × List String) :=
  if (getS settings "headerOnly").truthy then
    .ok (coercePositiveInt (getS settings "headerSnaplen") 96 64 "Header-Snaplen")
  else if (getS settings "snapLength").truthy then
    match pyInt (getSD settings "snapLength" (.intV 0)) with
    | some n => .ok (n, [])
    | none => .error "ValueError: snapLength"
  else .ok (0, [])

/-- Protocol translation table of filter_builder.build_bpf_filter, with the
legacy uppercase aliases. -/
def protocolMap : String → Option String
  | "tcp" => some "tcp"
  | "udp" => some "udp"
  | "icmp" => some "icmp"
  | "arp" => some "arp"
  | "ip" => some "ip"
  | "ip6" => some "ip6"
  | "TCP" => some "tcp"
  | "UDP" => some "udp"
  | "ICMP" => some "icmp"
  | "ARP" => some "arp"
  | "PTP" => some "udp port 319 or udp port 320"
  | "PROFINET" => some "ether proto 0x8892"
  | _ => none

/-- Protocol list translation of build_bpf_filter: map known names through
the table (retrying uppercased), keep unknown nonempty names lowercased,
skip non-strings and empties. -/
def translateProtocols (items : List SVal) : List String :=
  items.foldr
    (fun it acc =>
      match it with
      | .strV s =>
        (match (protocolMap (pyStrip s)).orElse
            (fun _ => protocolMap (strUpper (pyStrip s))) with
         | some m => m :: acc
         | none =>
           if pyStrip s ≠ "" then strLower (pyStrip s) :: acc else acc)
      | _ => acc)
    []

/-- filter_builder.build_bpf_filter: protocol, host, port and VLAN clauses,
the TSN block (gPTP / PTPv2-UDP / VLAN-tagged combinations), the TSN
priority clause and the custom clause, joined with and. -/
def build_bpf_filter (settings : Settings) : String :=
  let protoClause :=
    match pyOr (getS settings "filterProtocols") (getS settings "protocols") with
    | .listV items =>
      let translated := translateProtocols items
      if translated.isEmpty then []
      else ["(" ++ String.intercalate " or " translated ++ ")"]
    | _ => []
  let hostClause :=
    match pyOr (getS settings "filterHosts") (getS settings "macIpFilter") with
    | .strV s => if pyStrip s ≠ "" then ["host " ++ pyStrip s] else []
    | _ => []
  let portClause :=
    match getS settings "filterPorts" with
    | .strV s => if pyStrip s ≠ "" then ["port " ++ pyStrip s] else []
    | _ => []
  let vlanClause :=
    match pyInt (pyOr (getS settings "filterVlanId") (getS settings "vlanId")) with
    | some n => if 0 < n then ["vlan " ++ toString n] else []
    | none => []
  let tsnSync := (pyOr (getS settings "captureTsnSync") (getS settings "tsn8021as")).truthy
  let ptp := (pyOr (getS settings "capturePtp") (getS settings "ptpStatus")).truthy
  let vlanTagged := (pyOr (getS settings "captureVlanTagged") (getS settings "qbuPreemption")).truthy
  let tsnClause : List String :=
    if tsnSync && ptp then
      if vlanTagged then ["(vlan and ether proto 0x88f7)"]
      else ["(ether proto 0x88f7 or (udp port 319 or udp port 320))"]
    else if tsnSync then
      if vlanTagged then ["(vlan and ether proto 0x88f7)"] else ["ether proto 0x88f7"]
    else if ptp then ["(udp port 319 or udp port 320)"]
    else if vlanTagged then ["vlan"]
    else []
  let prioClause :=
    match getS settings "tsnPriorityFilter" with
    | .nullV => []
    | v =>
      match pyInt v with
      | some prio =>
        if 0 ≤ prio ∧ prio ≤ 7 then
          ["vlan and ether[14:2] & 0xe000 = " ++ toString (prio * 8192)]
        else []
      | none => []
  let customClause :=
    match getS settings "bpfFilter" with
    | .strV s => if pyStrip s ≠ "" then ["(" ++ pyStrip s ++ ")"] else []
    | _ => []
  String.intercalate " and "
    (protoClause ++ hostClause ++ portClause ++ vlanClause ++ tsnClause ++
     prioClause ++ customClause)

/-- Keyword list of filter_builder.validate_bpf_filter. -/
def bpfKeywords : List String :=
  ["host", "net", "port", "src", "dst", "and", "or", "not",
   "tcp", "udp", "icmp", "ip", "ip6", "arp", "ether", "vlan",
   "portrange", "proto", "broadcast", "multicast", "less", "greater"]

/-- Substring occurrence over character lists. -/
def subOccursIn (needle : List Char) : List Char → Bool
  | [] => needle.isEmpty
  | c :: rest => needle.isPrefixOf (c :: rest) || subOccursIn needle rest

/-- Substring test, mirroring the Python in operator on strings. -/
def containsSub (s sub : String) : Bool :=
  subOccursIn sub.toList s.toList

/-- filter_builder.validate_bpf_filter: best-effort heuristic; empty or
overlong filters and unbalanced parentheses fail, otherwise a known keyword
or any digit passes. -/
def validate_bpf_filter (f : String) : Bool :=
  let g := pyStrip f
  if g = "" || g.length > 1000 then false
  else if g.toList.count '(' ≠ g.toList.count ')' then false
  else
    let lower := strLower g
    bpfKeywords.any (fun kw => containsSub lower kw) || g.toList.any Char.isDigit

/-- Slug character class of tab_models.slugify: lowercase ascii letters and
digits survive, every other maximal run becomes one underscore. -/
def isSlugChar (c : Char) : Bool :=
  ('a' ≤ c && c ≤ 'z') || c.isDigit

/-- Collapse consecutive underscores to one (the + in the slug regex). -/
def collapseUnderscores : List Char → List Char
  | [] => []
  | [c] => [c]
  | c :: d :: rest =>
    if c = '_' ∧ d = '_' then collapseUnderscores (d :: rest)
    else c :: collapseUnderscores (d :: rest)

/-- tab_models.slugify: lowercase, replace non [a-z0-9] runs with
underscores, strip underscores at both ends, default to capture. -/
def slugify (value : String) : String :=
  let mapped :=
    (value.toList.map Char.toLower).map (fun c => if isSlugChar c then c else '_')
  let collapsed := collapseUnderscores mapped
  let stripped :=
    ((collapsed.dropWhile (fun c => c = '_')).reverse.dropWhile (fun c => c = '_')).reverse
  if stripped.isEmpty then "capture" else String.mk stripped

/-- Single quote character of the shlex lexer. -/
def squoteChar : Char := Char.ofNat 39

/-- Double quote character of the shlex lexer. -/
def dquoteChar : Char := Char.ofNat 34

/-- Escape character (backslash) of the shlex lexer. -/
def escapeChar : Char := Char.ofNat 92

/-- Token separator characters of the shlex lexer (shlex.whitespace is
space, tab, carriage return and line feed). -/
def shlexWhitespace : List Char := [' ', Char.ofNat 9, Char.ofNat 13, Char.ofNat 10]

/-- Lexer state of shlex.read_token in posix mode with whitespace_split:
outside quotes, after an escape outside quotes, inside single quotes,
inside double quotes, and after an escape inside double quotes. -/
inductive ShlexState
  | normal
  | escape
  | singleQ
  | doubleQ
  | doubleQEscape

/-- One-character-per-step transcription of shlex.read_token (posix mode,
whitespace_split on, comments off), accumulating the current token in
reverse and the emitted tokens in order. The Bool records whether the
current token exists (a character was appended or a quote was entered, so
empty quoted tokens are emitted). End of input inside a quote raises
ValueError No closing quotation; end of input in an escape state raises
ValueError No escape character. Inside double quotes the escape character
only escapes itself and the double quote and is otherwise kept literally;
inside single quotes every character is literal. -/
def shlexStep : List Char → ShlexState → List Char → Bool → List String →
    Except String (List String)
  | [], .normal, acc, hasTok, toks =>
    .ok (toks ++ if hasTok then [String.mk acc.reverse] else [])
  | [], .escape, _, _, _ => .error "ValueError: No escape character"
  | [], .doubleQEscape, _, _, _ => .error "ValueError: No escape character"
  | [], .singleQ, _, _, _ => .error "ValueError: No closing quotation"
  | [], .doubleQ, _, _, _ => .error "ValueError: No closing quotation"
  | c :: rest, .normal, acc, hasTok, toks =>
    if c ∈ shlexWhitespace then
      if hasTok then shlexStep rest .normal [] false (toks ++ [String.mk acc.reverse])
      else shlexStep rest .normal [] false toks
    else if c = escapeChar then shlexStep rest .escape acc hasTok toks
    else if c = squoteChar then shlexStep rest .singleQ acc true toks
    else if c = dquoteChar then shlexStep rest .doubleQ acc true toks
    else shlexStep rest .normal (c :: acc) true toks
  | c :: rest, .escape, acc, _, toks =>
    shlexStep rest .normal (c :: acc) true toks
  | c :: rest, .singleQ, acc, _, toks =>
    if c = squoteChar then shlexStep rest .normal acc true toks
    else shlexStep rest .singleQ (c :: acc) true toks
  | c :: rest, .doubleQ, acc, _, toks =>
    if c = dquoteChar then shlexStep rest .normal acc true toks
    else if c = escapeChar then shlexStep rest .doubleQEscape acc true toks
    else shlexStep rest .doubleQ (c :: acc) true toks
  | c :: rest, .doubleQEscape, acc, _, toks =>
    if c = dquoteChar ∨ c = escapeChar then
      shlexStep rest .doubleQ (c :: acc) true toks
    else shlexStep rest .doubleQ (c :: escapeChar :: acc) true toks

/-- shlex.split on the final filter tokens (run_executor.py line 599): a
fallible lexer that raises ValueError on an unterminated quote or a
trailing escape in the built filter expression. -/
def shlexSplit (s : String) : Except String (List String) :=
  shlexStep s.toList .normal [] false []

/-- RunExecutor._build_tcpdump_command: the fixed flag order per interface.
The buffer size override converts with a bare int() that raises ValueError
on a truthy non-numeric value, and the trailing filter tokens come from
shlex.split, which raises ValueError on an unterminated quote or trailing
escape in the filter; every other flag is total. The int() conversion
happens before the split, matching the statement order in the source. -/
def buildTcpdumpCommand (tcpdumpBin interface : String) (settings : Settings)
    (filenameBase : String) (snapLength ringSizeMB ringCount : Int)
    (bpfFilter : String) : Except String (List String) :=
  let part1 :=
    [tcpdumpBin, "-i", interface, "-nn"] ++
    (if (getS settings "printLinkLevelHeader").truthy then ["-e"] else []) ++
    (if 0 < snapLength then ["-s", toString snapLength] else ["-s", "0"])
  let bufferSize := getSD settings "bufferSize" (.intV 2)
  let bufFlags : Except String (List String) :=
    if bufferSize.truthy && !(svEqInt bufferSize 2) then
      match pyInt bufferSize with
      | some n => .ok ["-B", toString (n * 1024)]
      | none => .error "ValueError: bufferSize"
    else .ok []
  match bufFlags with
  | .error e => .error e
  | .ok bufPart =>
    let rest :=
      (if svEqStr (getS settings "timestampPrecision") "nano"
       then ["--time-stamp-precision=nano"] else []) ++
      (if (getS settings "immediateMode").truthy then ["--immediate-mode"] else []) ++
      (if ¬ (getSD settings "promiscuousMode" (.boolV true)).truthy then ["-p"] else []) ++
      (let v := getS settings "filterDirection"
       if v.truthy then ["-Q", pyStr v] else []) ++
      ["-w", filenameBase, "-C", toString ringSizeMB, "-W", toString ringCount] ++
      (let v := getS settings "stopPacketCount"
       if v.truthy then ["-c", pyStr v] else [])
    match (if bpfFilter = "" then Except.ok [] else shlexSplit bpfFilter) with
    | .error e => .error e
    | .ok filterToks => .ok (part1 ++ bufPart ++ rest ++ filterToks)

/-- Per-interface command context produced by _build_interface_commands;
the display string abstracts shlex.join to plain space joining. -/
structure InterfaceContext where
  command : List String
  commandDisplay : String
  interface : String
  filenameBase : String
deriving DecidableEq

/-- Result of RunExecutor._build_run_context. -/
structure RunContext where
  interfaceContexts : List InterfaceContext
  warnings : List String
  interfaces : List String
  ringFileSizeMB : Int
  ringFileCount : Int
  bpfFilter : String
deriving DecidableEq

/-- RunExecutor._build_run_context: resolve interfaces, ring parameters and
snapshot length (collecting warnings in call order), build and
heuristically validate the filter, resolve the filename prefix (settings
override or slugified profile name) and build one command per interface.
The error cases are the ValueError raises of the bare int() conversions
and of shlex.split on the built filter expression, which start_test
converts to InvalidConfigurationError. -/
def buildRunContext (tcpdumpBin captureDir : String) (profileName : SVal)
    (settings : Settings) (timestamp : String) : Except String RunContext :=
  let ifs := selectInterfaces settings
  let ringSize := calculateRingFileSizeMB settings
  let ringCount := coercePositiveInt (getS settings "ringFileCount") 10 1 "Ring-Dateianzahl"
  match determineSnapLength settings with
  | .error e => .error e
  | .ok snap =>
    let bpf := build_bpf_filter settings
    let bpfWarns :=
      if bpf ≠ "" ∧ ¬ validate_bpf_filter bpf
      then ["BPF-Filter koennte ungueltig sein."] else []
    let pname :=
      let s0 := pyStrip (pyStr (pyOr profileName (.strV "")))
      if s0 = "" then "capture" else s0
    let fnamePre :=
      let v := getS settings "filenamePrefix"
      if v.truthy then pyStr v else slugify pname
    let ctxs : Except String (List InterfaceContext) :=
      ifs.1.mapM
        (fun iface =>
          let fb := captureDir ++ "/" ++ fnamePre ++ "_" ++ iface ++ "_" ++ timestamp ++ ".pcap"
          (buildTcpdumpCommand tcpdumpBin iface settings fb snap.1 ringSize.1
             ringCount.1 bpf).map
            (fun cmd =>
              { command := cmd, commandDisplay := String.intercalate " " cmd,
                interface := iface, filenameBase := fb }))
    ctxs.map
      (fun ics =>
        { interfaceContexts := ics,
          warnings := ifs.2 ++ ringSize.2 ++ ringCount.2 ++ snap.2 ++ bpfWarns,
          interfaces := ifs.1, ringFileSizeMB := ringSize.1,
          ringFileCount := ringCount.1, bpfFilter := bpf })

/-- True exactly when the build step returns normally. -/
def buildOk (r : Except String RunContext) : Bool :=
  match r with
  | .ok _ => true
  | .error _ => false

/-- Sequence numbers held in the log buffer of a tab, oldest first. -/
def seqsOf (t : Tab) : List Nat :=
  t.logs.map (fun e => e.seq)

/-- Log buffer invariant of a Tab: the buffered sequence numbers form a
contiguous increasing range that ends exactly at the high-water mark
log_seq, and the buffer never exceeds the configured maximum. -/
def LogInvariant (max : Nat) (t : Tab) : Prop :=
  ∃ a, seqsOf t = List.range' a t.logs.length ∧
       a + t.logs.length = t.log_seq + 1 ∧
       t.logs.length ≤ max

theorem lookupKey_updateEntry_self (k : String) (f : β → β) (l : List (String × β)) :
    lookupKey k (updateEntry k f l) = (lookupKey k l).map f := by
  induction l with
  | nil => simp [lookupKey, updateEntry]
  | cons hd tl ih =>
    obtain ⟨k0, v⟩ := hd
    by_cases h : k0 = k <;> simp [lookupKey, updateEntry, h, ih]

theorem lookupKey_insertEntry_self (k : String) (v : β) (l : List (String × β)) :
    lookupKey k (insertEntry k v l) = some v := by
  induction l with
  | nil => simp [lookupKey, insertEntry]
  | cons hd tl ih =>
    obtain ⟨k0, v0⟩ := hd
    by_cases h : k0 = k <;> simp [lookupKey, insertEntry, h, ih]

theorem lookupKey_eraseKey_self (k : String) (l : List (String × β)) :
    lookupKey k (eraseKey k l) = none := by
  induction l with
  | nil => simp [lookupKey, eraseKey]
  | cons hd tl ih =>
    obtain ⟨k0, v⟩ := hd
    by_cases h : k0 = k <;> simp [lookupKey, eraseKey, h] at ih ⊢ <;> simpa [h] using ih

theorem eraseKey_of_lookupKey_none (k : String) (l : List (String × β))
    (h : lookupKey k l = none) : eraseKey k l = l := by
  induction l with
  | nil => simp [eraseKey]
  | cons hd tl ih =>
    obtain ⟨k0, v⟩ := hd
    by_cases hk : k0 = k
    · simp [lookupKey, hk] at h
    · simp [lookupKey, hk] at h
      simp [eraseKey, hk] at ih ⊢
      exact ih h

theorem lookupKey_none_iff (k : String) (l : List (String × β)) :
    lookupKey k l = none ↔ ∀ p ∈ l, ¬ p.1 = k := by
  induction l with
  | nil => simp [lookupKey]
  | cons hd tl ih =>
    obtain ⟨k0, v⟩ := hd
    by_cases h : k0 = k
    · simp [lookupKey, h]
    · simp [lookupKey, h, ih]

/-- C8: on loading persisted state, every Tab whose stored status is
starting or running is forced to status idle with its Run reference
cleared, so no loaded Tab is ever in a non-terminal running state
(TabManager._load_state). -/
theorem C8_load_state_forces_idle :
    (∀ stored : List Tab,
      (loadState stored).all
        (fun t => !(t.status == "running" || t.status == "starting")) = true) ∧
    (∀ t : Tab, t.status = "running" ∨ t.status = "starting" →
      loadTabCleanup t = { t with status := "idle", run := none }) := by
  constructor
  · intro stored
    rw [List.all_eq_true]
    intro t ht
    rw [loadState, List.mem_map] at ht
    obtain ⟨t0, _, rfl⟩ := ht
    rw [loadTabCleanup]
    by_cases h : t0.status = "running" ∨ t0.status = "starting"
    · simp [h]
    · push_neg at h
      rw [if_neg (by push_neg; exact h)]
      simp [h.1, h.2]
  · intro t h
    rw [loadTabCleanup, if_pos h]

/-- C8 witness: a concrete tab recovered as running is forced back to idle
with its run cleared. -/
theorem C8_load_state_forces_idle_witness :
    loadTabCleanup
      { id := "t1", title := "T", status := "running", created_utc := "c",
        updated_utc := "u", run := some { id := "r", started_utc := "s" } } =
      { id := "t1", title := "T", status := "idle", created_utc := "c",
        updated_utc := "u", run := none } :=
  C8_load_state_forces_idle.2 _ (Or.inl rfl)

/-- C10 counterexample: updateTab called with a None title keeps the
previous title instead of setting the default, refuting the claim that a
None title always yields the default on update. -/
theorem C10_title_default_cex :
    (updateTab
        { tabs := [("t1",
            { id := "t1", title := "Alpha", status := "idle",
              created_utc := "c", updated_utc := "u" })],
          runs := [] }
        "t1" none none "u2").map (fun p => p.1.title) = some "Alpha" ∧
      ("Alpha" : String) ≠ "Neuer Test" :=
  ⟨rfl, by decide⟩

/-- C10 (amended): createTab defaults a None, empty or whitespace-only
title to the nonempty default and never produces an empty title; updateTab
defaults an empty or whitespace-only supplied title, leaves the title
unchanged when the supplied title is None, and never turns a nonempty
title empty. -/
theorem C10_title_never_empty (s : SysState) (tab_id now : String)
    (title profile_id : Option String) :
    (title = none ∨ pyStrip (title.getD "") = "" →
      (createTab s tab_id now title profile_id).1.title = "Neuer Test") ∧
    (createTab s tab_id now title profile_id).1.title ≠ "" ∧
    (∀ tab : Tab, lookupKey tab_id s.tabs = some tab →
      (∀ t0 : String, pyStrip t0 = "" →
        (updateTab s tab_id (some t0) profile_id now).map (fun p => p.1.title) =
          some "Neuer Test") ∧
      ((updateTab s tab_id none profile_id now).map (fun p => p.1.title) =
        some tab.title) ∧
      (tab.title ≠ "" →
        ∀ res : String,
          (updateTab s tab_id title profile_id now).map (fun p => p.1.title) = some res →
          res ≠ "")) := by
  refine ⟨?_, ?_, ?_⟩
  · intro h
    rcases h with h | h
    · subst h
      simp [createTab, defaultTitle, pyStrip]
    · simp [createTab, defaultTitle, h]
  · simp only [createTab, defaultTitle]
    by_cases h : pyStrip (title.getD "") = "" <;> simp [h]
  · intro tab hlook
    refine ⟨?_, ?_, ?_⟩
    · intro t0 h0
      simp [updateTab, hlook, h0]
      cases profile_id <;> simp
    · simp [updateTab, hlook]
      cases profile_id <;> simp
    · intro hne res hres
      simp [updateTab, hlook] at hres
      cases title with
      | none =>
        cases profile_id <;> simp at hres <;> subst hres <;> exact hne
      | some t0 =>
        by_cases h0 : pyStrip t0 = "" <;>
          cases profile_id <;> simp [h0] at hres <;> subst hres <;> simp [h0]

/-- C10 witness: a whitespace-only title on create yields the default. -/
theorem C10_title_never_empty_witness :
    (createTab { tabs := [], runs := [] } "t1" "c" (some "   ") none).1.title =
      "Neuer Test" :=
  (C10_title_never_empty { tabs := [], runs := [] } "t1" "c" (some "   ") none).1
    (Or.inr rfl)

theorem watchLoop_spec (script : List ReadEv) :
    (watchLoop script).1.countP isExitReport = 0 ∧
    (watchLoop script).1.any isCancelMark = (watchLoop script).2 := by
  induction script with
  | nil => simp [watchLoop]
  | cons ev rest ih =>
    cases ev <;>
      simp [watchLoop, List.countP_cons, List.any_cons, isExitReport, isCancelMark,
            ih.1, ih.2]

/-- C4: a watcher whose run observes an external cancellation (at a
readline or at the process wait) re-raises and never invokes the exit
callback, while an uncancelled watcher invokes the exit callback with a
terminal exit code or error exactly once
(process_manager.watch_interface_process). -/
theorem C4_watcher_exit_reporting (script : List ReadEv) (w : WaitEv)
    (rcAttr : Option Int) :
    (watchInterfaceProcess script w rcAttr).countP isExitReport =
      (if (watchInterfaceProcess script w rcAttr).any isCancelMark then 0 else 1) := by
  have h := watchLoop_spec script
  rcases hc : (watchLoop script).2 with _ | _
  · cases w <;>
      simp [watchInterfaceProcess, hc, List.countP_append, List.any_append,
            h.1, h.2, List.countP_cons, isExitReport, isCancelMark]
  · simp [watchInterfaceProcess, hc, h.1, h.2]

theorem drop_range' (a n k : Nat) :
    (List.range' a n).drop k = List.range' (a + k) (n - k) := by
  induction n generalizing a k with
  | zero => simp
  | succ m ih =>
    cases k with
    | zero => simp
    | succ j =>
      rw [List.range'_succ, List.drop_succ_cons, ih]
      have h1 : a + 1 + j = a + (j + 1) := by omega
      have h2 : m - j = m + 1 - (j + 1) := by omega
      rw [h1, h2]

theorem capAppend_map_seq (max : Nat) (logs : List LogEntry) (e : LogEntry) :
    (capAppend max logs e).map (fun x => x.seq) =
      ((logs.map (fun x => x.seq)) ++ [e.seq]).drop (logs.length + 1 - max) := by
  simp [capAppend, List.map_drop]

theorem capAppend_length (max : Nat) (logs : List LogEntry) (e : LogEntry) :
    (capAppend max logs e).length = logs.length + 1 - (logs.length + 1 - max) := by
  simp [capAppend]

/-- C6: each appended log entry gets the sequence number one above the
previous counter, the buffered sequence numbers stay a contiguous
increasing range ending at the high-water mark, and the buffer never holds
more than the configured maximum; create_tab establishes the invariant
(TabManager.append_log and TabManager.create_tab). -/
theorem C6_log_sequencing (max : Nat) (t : Tab) (msg : String)
    (ifc : Option String) (now : String) (hInv : LogInvariant max t) :
    LogInvariant max (appendLogTab max t msg ifc now) ∧
    (appendLogTab max t msg ifc now).log_seq = t.log_seq + 1 ∧
    (∀ s tab_id nowc title pid, LogInvariant max (createTab s tab_id nowc title pid).1) := by
  obtain ⟨a, hseq, hsum, hle⟩ := hInv
  refine ⟨?_, rfl, ?_⟩
  · simp only [appendLogTab, seqsOf, LogInvariant]
    refine ⟨a + (t.logs.length + 1 - max), ?_, ?_, ?_⟩
    · rw [capAppend_map_seq, capAppend_length]
      have hmap : t.logs.map (fun x => x.seq) = List.range' a t.logs.length := hseq
      rw [hmap]
      have hcat : List.range' a t.logs.length ++ [t.log_seq + 1] =
          List.range' a (t.logs.length + 1) := by
        have h3 : a + 1 * t.logs.length = t.log_seq + 1 := by omega
        rw [List.range'_concat, h3]
      rw [hcat, drop_range']
    · rw [capAppend_length]
      omega
    · rw [capAppend_length]
      omega
  · intro s tab_id nowc title pid
    refine ⟨1, ?_, ?_, ?_⟩
    · simp [createTab, seqsOf]
    · simp [createTab]
    · simp [createTab]

/-- C6 witness: appending to a fresh tab assigns sequence number one. -/
theorem C6_log_sequencing_witness :
    (appendLogTab 500
      { id := "t1", title := "T", status := "idle", created_utc := "c",
        updated_utc := "c" } "hello" none "n").log_seq = 1 :=
  (C6_log_sequencing 500
    { id := "t1", title := "T", status := "idle", created_utc := "c",
      updated_utc := "c" } "hello" none "n" ⟨1, rfl, rfl, by decide⟩).2.1

/-- C2: a startTest call for a tab id that already has an open run in the
executor raises the conflict error and registers no second run: the whole
state, and in particular the active-run map entry for that tab id, is
unchanged (TestExecutionManager.start_test, RunExecutor.start_test). -/
theorem C2_start_conflict (max : Nat) (s : SysState) (tab_id : String)
    (outcomes : List (Option IProc)) (run_id now : String)
    (tab : Tab) (rt : RunningTest)
    (htab : lookupKey tab_id s.tabs = some tab)
    (hrun : lookupKey tab_id s.runs = some rt) :
    startTest max s tab_id outcomes run_id now = (.alreadyRunning, s) ∧
    lookupKey tab_id (startTest max s tab_id outcomes run_id now).2.runs = some rt := by
  have h1 : startTest max s tab_id outcomes run_id now = (.alreadyRunning, s) := by
    simp [startTest, htab, hrun]
  exact ⟨h1, by rw [h1]; exact hrun⟩

/-- C2 witness: a concrete second start on a running tab is rejected with
the state unchanged. -/
theorem C2_start_conflict_witness :
    startTest 500
      { tabs := [("t1", { id := "t1", title := "T", status := "running",
                          created_utc := "c", updated_utc := "u" })],
        runs := [("t1", { run_id := "r1", processes := [] })] }
      "t1" [] "r2" "n" =
      (.alreadyRunning,
       { tabs := [("t1", { id := "t1", title := "T", status := "running",
                           created_utc := "c", updated_utc := "u" })],
         runs := [("t1", { run_id := "r1", processes := [] })] }) :=
  (C2_start_conflict 500
    { tabs := [("t1", { id := "t1", title := "T", status := "running",
                        created_utc := "c", updated_utc := "u" })],
      runs := [("t1", { run_id := "r1", processes := [] })] }
    "t1" [] "r2" "n"
    { id := "t1", title := "T", status := "running",
      created_utc := "c", updated_utc := "u" }
    { run_id := "r1", processes := [] } rfl rfl).1

/-- C5: stopping a tab with no open run yields the not-running result from
the executor, returns the stored tab snapshot without raising and changes
no state; repeated consecutive stops leave the state unchanged
(RunExecutor.stop_test, TestExecutionManager.stop_test). -/
theorem C5_stop_idempotent (max : Nat) (s : SysState) (tab_id now : String)
    (t : Tab)
    (hrun : lookupKey tab_id s.runs = none)
    (htab : lookupKey tab_id s.tabs = some t) :
    stopTestExec max s tab_id now = (none, s) ∧
    stopTest max s tab_id now = (.snapshot t, s) ∧
    (∀ nows : List String,
      nows.foldl (fun st nw => (stopTest max st tab_id nw).2) s = s) := by
  have h0 : ∀ nw : String, stopTestExec max s tab_id nw = (none, s) := by
    intro nw
    simp [stopTestExec, hrun]
  have hgen : ∀ nw : String, stopTest max s tab_id nw = (.snapshot t, s) := by
    intro nw
    simp [stopTest, h0 nw, htab]
  refine ⟨h0 now, hgen now, ?_⟩
  intro nows
  induction nows with
  | nil => rfl
  | cons nw rest ih =>
    rw [List.foldl_cons, hgen nw]
    exact ih

/-- C5 witness: a concrete stop on an idle tab returns its snapshot and
changes nothing, twice in a row. -/
theorem C5_stop_idempotent_witness :
    stopTest 500
      { tabs := [("t1", { id := "t1", title := "T", status := "completed",
                          created_utc := "c", updated_utc := "u" })],
        runs := [] } "t1" "n" =
      (.snapshot { id := "t1", title := "T", status := "completed",
                   created_utc := "c", updated_utc := "u" },
       { tabs := [("t1", { id := "t1", title := "T", status := "completed",
                           created_utc := "c", updated_utc := "u" })],
         runs := [] }) ∧
    ["n1", "n2", "n3"].foldl
      (fun st nw => (stopTest 500 st "t1" nw).2)
      { tabs := [("t1", { id := "t1", title := "T", status := "completed",
                          created_utc := "c", updated_utc := "u" })],
        runs := [] } =
      { tabs := [("t1", { id := "t1", title := "T", status := "completed",
                          created_utc := "c", updated_utc := "u" })],
        runs := [] } :=
  ⟨(C5_stop_idempotent 500
      { tabs := [("t1", { id := "t1", title := "T", status := "completed",
                          created_utc := "c", updated_utc := "u" })],
        runs := [] } "t1" "n"
      { id := "t1", title := "T", status := "completed",
        created_utc := "c", updated_utc := "u" } rfl rfl).2.1,
   (C5_stop_idempotent 500
      { tabs := [("t1", { id := "t1", title := "T", status := "completed",
                          created_utc := "c", updated_utc := "u" })],
        runs := [] } "t1" "n"
      { id := "t1", title := "T", status := "completed",
        created_utc := "c", updated_utc := "u" } rfl rfl).2.2 ["n1", "n2", "n3"]⟩

/-- C9: deleting a tab whose id is in the executor active set raises the
conflict error and changes no state, so the tab is still listed; deleting
an existing tab that is not running removes exactly its entry, so the tab
id is absent from the tab map and from every subsequent listing
(TabManager.delete_tab, TestExecutionManager.delete_tab). -/
theorem C9_delete_tab (s : SysState) (tab_id : String) :
    (∀ rt : RunningTest, lookupKey tab_id s.runs = some rt →
      deleteTab s tab_id = (.conflict, s)) ∧
    (lookupKey tab_id s.runs = none →
      ∀ t : Tab, lookupKey tab_id s.tabs = some t →
        (deleteTab s tab_id).1 = .deleted ∧
        (deleteTab s tab_id).2.tabs = eraseKey tab_id s.tabs ∧
        lookupKey tab_id (deleteTab s tab_id).2.tabs = none ∧
        ∀ p ∈ (deleteTab s tab_id).2.tabs, ¬ p.1 = tab_id) := by
  constructor
  · intro rt hrun
    simp [deleteTab, hrun]
  · intro hrun t htab
    have hdel : deleteTab s tab_id = (.deleted, { s with tabs := eraseKey tab_id s.tabs }) := by
      simp [deleteTab, hrun, htab]
    refine ⟨by rw [hdel], by rw [hdel], ?_, ?_⟩
    · rw [hdel]
      exact lookupKey_eraseKey_self tab_id s.tabs
    · rw [hdel]
      exact (lookupKey_none_iff tab_id _).1 (lookupKey_eraseKey_self tab_id s.tabs)

/-- C9 witness: a running tab cannot be deleted; after it is no longer
running, deletion removes its entry. -/
theorem C9_delete_tab_witness :
    deleteTab
      { tabs := [("t1", { id := "t1", title := "T", status := "running",
                          created_utc := "c", updated_utc := "u" })],
        runs := [("t1", { run_id := "r1", processes := [] })] } "t1" =
      (.conflict,
       { tabs := [("t1", { id := "t1", title := "T", status := "running",
                           created_utc := "c", updated_utc := "u" })],
         runs := [("t1", { run_id := "r1", processes := [] })] }) ∧
    lookupKey "t1"
      (deleteTab
        { tabs := [("t1", { id := "t1", title := "T", status := "completed",
                            created_utc := "c", updated_utc := "u" })],
          runs := [] } "t1").2.tabs = none :=
  ⟨(C9_delete_tab
      { tabs := [("t1", { id := "t1", title := "T", status := "running",
                          created_utc := "c", updated_utc := "u" })],
        runs := [("t1", { run_id := "r1", processes := [] })] } "t1").1 _ rfl,
   ((C9_delete_tab
      { tabs := [("t1", { id := "t1", title := "T", status := "completed",
                          created_utc := "c", updated_utc := "u" })],
        runs := [] } "t1").2 rfl
      { id := "t1", title := "T", status := "completed",
        created_utc := "c", updated_utc := "u" } rfl).2.2.1⟩

theorem spawnLoop_failure (pre : List IProc) (rest : List (Option IProc)) :
    spawnLoop (pre.map some ++ none :: rest) = .error pre := by
  induction pre with
  | nil => simp [spawnLoop]
  | cons p ps ih => simp [spawnLoop, ih]

/-- C7: when the spawn of one interface process fails during startTest,
exactly the already spawned sibling processes of that run are killed before
the execution error propagates, no run is registered for the tab id in the
active-run map, and the tab ends in status failed
(RunExecutor.start_test, RunExecutor._cleanup_started_processes,
TestExecutionManager._mark_run_failed). -/
theorem C7_spawn_failure_all_or_nothing (max : Nat) (s : SysState)
    (tab_id : String) (pre : List IProc) (rest : List (Option IProc))
    (run_id now : String) (tab : Tab)
    (htab : lookupKey tab_id s.tabs = some tab)
    (hrun : lookupKey tab_id s.runs = none) :
    (startTest max s tab_id (pre.map some ++ none :: rest) run_id now).1 =
      .execError (pre.map (fun p : IProc => p.pid)) ∧
    (startTest max s tab_id (pre.map some ++ none :: rest) run_id now).2.runs = s.runs ∧
    lookupKey tab_id
      (startTest max s tab_id (pre.map some ++ none :: rest) run_id now).2.runs = none ∧
    (lookupKey tab_id
      (startTest max s tab_id (pre.map some ++ none :: rest) run_id now).2.tabs).map
        (fun t => t.status) = some "failed" := by
  have hstart : startTest max s tab_id (pre.map some ++ none :: rest) run_id now =
      (.execError (pre.map (fun p : IProc => p.pid)),
       markRunFailed max
         { s with
           tabs := updateEntry tab_id
             (fun t => { t with status := "starting",
                                run := some { id := "", started_utc := now } }) s.tabs }
         tab_id "Start fehlgeschlagen" now) := by
    simp [startTest, htab, hrun, spawnLoop_failure]
  have hmark : markRunFailed max
      { s with
        tabs := updateEntry tab_id
          (fun t => { t with status := "starting",
                             run := some { id := "", started_utc := now } }) s.tabs }
      tab_id "Start fehlgeschlagen" now =
      { tabs := updateEntry tab_id
          (fun t => { t with status := "failed",
                             run := some { id := "", started_utc := now,
                                           finished_utc := some now,
                                           exit_codes := some [none],
                                           exit_code := none,
                                           error := some "Start fehlgeschlagen" } })
          (updateEntry tab_id
            (fun t => appendLogTab max t "Start fehlgeschlagen" none now)
            (updateEntry tab_id
              (fun t => { t with status := "starting",
                                 run := some { id := "", started_utc := now } }) s.tabs)),
        runs := s.runs } := by
    rw [markRunFailed]
    rw [show (appendLogSys max
        { s with
          tabs := updateEntry tab_id
            (fun t => { t with status := "starting",
                               run := some { id := "", started_utc := now } }) s.tabs }
        tab_id "Start fehlgeschlagen" none now) =
      { tabs := updateEntry tab_id
          (fun t => appendLogTab max t "Start fehlgeschlagen" none now)
          (updateEntry tab_id
            (fun t => { t with status := "starting",
                               run := some { id := "", started_utc := now } }) s.tabs),
        runs := s.runs } from rfl]
    simp [lookupKey_updateEntry_self, htab, appendLogTab,
          eraseKey_of_lookupKey_none tab_id s.runs hrun]
  refine ⟨by rw [hstart], ?_, ?_, ?_⟩
  · rw [hstart, hmark]
  · rw [hstart, hmark]
    exact hrun
  · rw [hstart, hmark]
    simp [lookupKey_updateEntry_self, htab]

/-- C7 witness: with two interfaces and the second spawn failing, exactly
the first process is killed, nothing is registered and the tab is failed. -/
theorem C7_spawn_failure_all_or_nothing_witness :
    (startTest 500
      { tabs := [("t1", { id := "t1", title := "T", status := "idle",
                          created_utc := "c", updated_utc := "u" })],
        runs := [] }
      "t1" [some { interface := "eth0", pid := 101 }, none] "r1" "n").1 =
      .execError [101] ∧
    (lookupKey "t1"
      (startTest 500
        { tabs := [("t1", { id := "t1", title := "T", status := "idle",
                            created_utc := "c", updated_utc := "u" })],
          runs := [] }
        "t1" [some { interface := "eth0", pid := 101 }, none] "r1" "n").2.tabs).map
      (fun t => t.status) = some "failed" := by
  have h := C7_spawn_failure_all_or_nothing 500
    { tabs := [("t1", { id := "t1", title := "T", status := "idle",
                        created_utc := "c", updated_utc := "u" })],
      runs := [] }
    "t1" [{ interface := "eth0", pid := 101 }] [] "r1" "n"
    { id := "t1", title := "T", status := "idle",
      created_utc := "c", updated_utc := "u" } rfl rfl
  exact ⟨h.1, h.2.2.2⟩

theorem perm_any_eq (l1 l2 : List Int) (f : Int → Bool) (h : l1.Perm l2) :
    l1.any f = l2.any f := by
  cases h1 : l1.any f with
  | true =>
    rw [List.any_eq_true] at h1
    obtain ⟨x, hx, hfx⟩ := h1
    exact (List.any_eq_true.2 ⟨x, h.mem_iff.1 hx, hfx⟩).symm
  | false =>
    rw [List.any_eq_false] at h1
    symm
    rw [List.any_eq_false]
    intro x hx
    exact h1 x (h.mem_iff.2 hx)

theorem anyNonzero_map_some (l : List Int) :
    anyNonzero (l.map some) = l.any (fun v => decide (¬ v = 0)) := by
  induction l with
  | nil => rfl
  | cons x xs ih =>
    simp only [anyNonzero, List.map_cons, List.any_cons] at ih ⊢
    rw [ih]

theorem finalizeStatus_completed_iff (l : List Int) (e : Option String) :
    finalizeStatus (l.map some) e = "completed" ↔
      ((∀ c ∈ l, c = 0) ∧ errTruthy e = false) := by
  rw [finalizeStatus, anyNonzero_map_some]
  cases herr : errTruthy e with
  | true =>
    rw [if_pos rfl]
    exact iff_of_false (by decide) (fun hco => by simpa using hco.2)
  | false =>
    rw [if_neg (by decide)]
    cases hnz : l.any (fun v => decide (¬ v = 0)) with
    | true =>
      rw [if_pos rfl]
      rw [List.any_eq_true] at hnz
      obtain ⟨x, hx, hfx⟩ := hnz
      exact iff_of_false (by decide)
        (fun hco => absurd (hco.1 x hx) (by simpa using hfx))
    | false =>
      rw [if_neg (by decide)]
      rw [List.any_eq_false] at hnz
      constructor
      · intro _
        refine ⟨fun c hc => ?_, rfl⟩
        have := hnz c hc
        simpa using this
      · intro _
        rfl

/-- C1: once every sibling process of a run reports an exit code, the
finalization path of the exit handler sets the tab status to completed
exactly when every exit code is zero and no error text is set, failed
otherwise; the outcome is invariant under the exit order, the run is
deregistered, and the explicit-stop finalization applies the same rule
with no error text
(TestExecutionManager._handle_interface_process_exit,
TestExecutionManager.stop_test). -/
theorem C1_finalization_status (max : Nat) (s : SysState) (tab_id run_id : String)
    (interface : Option String) (error : Option String) (now : String)
    (st : RunningTest) (codes : List Int) (tab : Tab) (run : Run)
    (hrun : lookupKey tab_id s.runs = some st)
    (hcodes : st.processes.map (fun p => p.returncode) = codes.map some)
    (htab : lookupKey tab_id s.tabs = some tab)
    (htabrun : tab.run = some run)
    (hid : run.id = run_id)
    (hfin : run.finished_utc = none) :
    ((lookupKey tab_id
        (handleInterfaceProcessExit max s tab_id run_id interface error now).tabs).map
      (fun t => t.status) = some (finalizeStatus (codes.map some) error)) ∧
    lookupKey tab_id
      (handleInterfaceProcessExit max s tab_id run_id interface error now).runs = none ∧
    (finalizeStatus (codes.map some) error = "completed" ↔
      ((∀ c ∈ codes, c = 0) ∧ errTruthy error = false)) ∧
    (finalizeStatus (codes.map some) error = "completed" ∨
     finalizeStatus (codes.map some) error = "failed") ∧
    (∀ codes2 : List Int, codes.Perm codes2 →
      finalizeStatus (codes2.map some) error = finalizeStatus (codes.map some) error) ∧
    (∀ cs : List (Option Int), stopFinalizeStatus cs = finalizeStatus cs none) := by
  have hall : st.processes.all (fun p => p.returncode.isSome) = true := by
    rw [List.all_eq_true]
    intro p hp
    have hmem : p.returncode ∈ st.processes.map (fun q => q.returncode) :=
      List.mem_map_of_mem _ hp
    rw [hcodes, List.mem_map] at hmem
    obtain ⟨c, _, hc⟩ := hmem
    rw [← hc]
    rfl
  have hdone : checkAllProcessesDone
      (appendLogSys max s tab_id "tcpdump beendet" interface now) tab_id =
      (true, codes.map some) := by
    simp [checkAllProcessesDone, appendLogSys, hrun, hall, hcodes]
  have hs1 : lookupKey tab_id
      (appendLogSys max s tab_id "tcpdump beendet" interface now).tabs =
      some (appendLogTab max tab "tcpdump beendet" interface now) := by
    simp [appendLogSys, lookupKey_updateEntry_self, htab]
  refine ⟨?_, ?_, finalizeStatus_completed_iff codes error, ?_, ?_, ?_⟩
  · simp only [handleInterfaceProcessExit, hdone, hs1, appendLogTab, htabrun, hid, hfin]
    simp [appendLogSys, lookupKey_updateEntry_self, htab, appendLogTab]
  · simp only [handleInterfaceProcessExit, hdone, hs1, appendLogTab, htabrun, hid, hfin]
    simp [appendLogSys, lookupKey_eraseKey_self]
  · rw [finalizeStatus]
    by_cases herr : errTruthy error = true
    · rw [if_pos herr]
      right
      rfl
    · rw [if_neg herr]
      by_cases hnz : anyNonzero (codes.map some) = true
      · rw [if_pos hnz]
        right
        rfl
      · rw [if_neg hnz]
        left
        rfl
  · intro codes2 hp
    have hany : codes2.any (fun v => decide (¬ v = 0)) =
        codes.any (fun v => decide (¬ v = 0)) :=
      perm_any_eq _ _ _ hp.symm
    rw [finalizeStatus, finalizeStatus, anyNonzero_map_some, anyNonzero_map_some, hany]
  · intro cs
    simp [stopFinalizeStatus, finalizeStatus, errTruthy]

/-- C1 witness: two interfaces exiting with codes zero and one finalize the
tab as failed, and the run is deregistered. -/
theorem C1_finalization_status_witness :
    ((lookupKey "t1"
        (handleInterfaceProcessExit 500
          { tabs := [("t1",
              { id := "t1", title := "T", status := "running",
                created_utc := "c", updated_utc := "u",
                run := some { id := "r1", started_utc := "s0" } })],
            runs := [("t1",
              { run_id := "r1",
                processes :=
                  [{ interface := "eth0", pid := 1, returncode := some 0 },
                   { interface := "eth1", pid := 2, returncode := some 1 }] })] }
          "t1" "r1" (some "eth1") none "n").tabs).map
      (fun t => t.status) = some "failed") ∧
    lookupKey "t1"
      (handleInterfaceProcessExit 500
        { tabs := [("t1",
            { id := "t1", title := "T", status := "running",
              created_utc := "c", updated_utc := "u",
              run := some { id := "r1", started_utc := "s0" } })],
          runs := [("t1",
            { run_id := "r1",
              processes :=
                [{ interface := "eth0", pid := 1, returncode := some 0 },
                 { interface := "eth1", pid := 2, returncode := some 1 }] })] }
        "t1" "r1" (some "eth1") none "n").runs = none := by
  have h := C1_finalization_status 500
    { tabs := [("t1",
        { id := "t1", title := "T", status := "running",
          created_utc := "c", updated_utc := "u",
          run := some { id := "r1", started_utc := "s0" } })],
      runs := [("t1",
        { run_id := "r1",
          processes :=
            [{ interface := "eth0", pid := 1, returncode := some 0 },
             { interface := "eth1", pid := 2, returncode := some 1 }] })] }
    "t1" "r1" (some "eth1") none "n"
    { run_id := "r1",
      processes :=
        [{ interface := "eth0", pid := 1, returncode := some 0 },
         { interface := "eth1", pid := 2, returncode := some 1 }] }
    [0, 1]
    { id := "t1", title := "T", status := "running",
      created_utc := "c", updated_utc := "u",
      run := some { id := "r1", started_utc := "s0" } }
    { id := "r1", started_utc := "s0" }
    rfl rfl rfl rfl rfl rfl
  exact ⟨h.1.trans (by decide), h.2.1⟩

/-- C3 counterexample: a profile whose snapLength setting is a truthy
non-numeric string makes the build/validate step raise ValueError instead
of returning normally with a warning, refuting the never-raises claim
(RunExecutor._build_run_context, RunExecutor._determine_snap_length; the
caller start_test catches exactly this ValueError and re-raises it as
InvalidConfigurationError). -/
theorem C3_build_raises_cex :
    buildRunContext "tcpdump" "/captures" SVal.nullV
      [("snapLength", SVal.strV "abc")] "ts" = .error "ValueError: snapLength" := by
  rfl

theorem mapM_ok (f : α → Except String β) (l : List α)
    (h : ∀ a ∈ l, ∃ b, f a = .ok b) : ∃ bs, l.mapM f = .ok bs := by
  induction l with
  | nil => exact ⟨[], rfl⟩
  | cons x xs ih =>
    obtain ⟨b, hb⟩ := h x (List.mem_cons_self x xs)
    obtain ⟨bs, hbs⟩ := ih (fun a ha => h a (List.mem_cons_of_mem x ha))
    refine ⟨b :: bs, ?_⟩
    rw [List.mapM_cons, hb, hbs]
    rfl

theorem buildOk_map_mapM (f : String → Except String InterfaceContext)
    (l : List String) (g : List InterfaceContext → RunContext)
    (h : ∀ a ∈ l, ∃ b, f a = .ok b) :
    buildOk ((l.mapM f).map (fun ics => g ics)) = true := by
  obtain ⟨bs, hbs⟩ := mapM_ok f l h
  rw [hbs]
  rfl

theorem buildTcpdumpCommand_ok (tb iface : String) (settings : Settings)
    (fb : String) (sl rs rc : Int) (bpf : String)
    (hbuf : (getSD settings "bufferSize" (.intV 2)).truthy = true →
            svEqInt (getSD settings "bufferSize" (.intV 2)) 2 = false →
            (pyInt (getSD settings "bufferSize" (.intV 2))).isSome = true)
    (hfil : bpf = "" ∨ ∃ ts, shlexSplit bpf = .ok ts) :
    ∃ cmd, buildTcpdumpCommand tb iface settings fb sl rs rc bpf = .ok cmd := by
  by_cases hb : ((getSD settings "bufferSize" (.intV 2)).truthy &&
      !(svEqInt (getSD settings "bufferSize" (.intV 2)) 2)) = true
  · have hb2 : (getSD settings "bufferSize" (.intV 2)).truthy = true ∧
        svEqInt (getSD settings "bufferSize" (.intV 2)) 2 = false := by
      simpa using hb
    obtain ⟨n, hn⟩ := Option.isSome_iff_exists.1 (hbuf hb2.1 hb2.2)
    cases hx : buildTcpdumpCommand tb iface settings fb sl rs rc bpf with
    | ok cmd => exact ⟨cmd, rfl⟩
    | error e =>
      rw [buildTcpdumpCommand] at hx
      rcases hfil with hbe | ⟨ts, hts⟩
      · simp [hb, hn, hbe] at hx
      · by_cases hbe : bpf = ""
        · simp [hb, hn, hbe] at hx
        · simp [hb, hn, hbe, hts] at hx
  · cases hx : buildTcpdumpCommand tb iface settings fb sl rs rc bpf with
    | ok cmd => exact ⟨cmd, rfl⟩
    | error e =>
      rw [Bool.not_eq_true] at hb
      rw [buildTcpdumpCommand] at hx
      rcases hfil with hbe | ⟨ts, hts⟩
      · simp [hb, hbe] at hx
      · by_cases hbe : bpf = ""
        · simp [hb, hbe] at hx
        · simp [hb, hbe, hts] at hx

/-- C3 (amended): the build/validate step resolves interfaces, ring-buffer
parameters, snapshot length and the filter expression recording problems
as appended warnings, and returns normally for every profile (over the
JSON value domain, floats taken finite) in which a truthy snapLength and a
truthy non-default bufferSize value are int()-convertible and the built
filter expression lexes without an unterminated quote or trailing escape;
a truthy non-convertible snapLength or bufferSize, or an unbalanced quote
in the custom filter, makes the step raise ValueError, which startTest
converts to the configuration error
(RunExecutor._build_run_context, RunExecutor.start_test). -/
theorem C3_build_total_amended (tcpdumpBin captureDir : String)
    (profileName : SVal) (settings : Settings) (timestamp : String)
    (hsnap : (getS settings "headerOnly").truthy = false →
             (getS settings "snapLength").truthy = true →
             (pyInt (getSD settings "snapLength" (.intV 0))).isSome = true)
    (hbuf : (getSD settings "bufferSize" (.intV 2)).truthy = true →
            svEqInt (getSD settings "bufferSize" (.intV 2)) 2 = false →
            (pyInt (getSD settings "bufferSize" (.intV 2))).isSome = true)
    (hfil : build_bpf_filter settings = "" ∨
            ∃ ts, shlexSplit (build_bpf_filter settings) = .ok ts) :
    buildOk (buildRunContext tcpdumpBin captureDir profileName settings timestamp) =
      true := by
  have hsl : ∃ v, determineSnapLength settings = .ok v := by
    rw [determineSnapLength]
    by_cases h1 : (getS settings "headerOnly").truthy = true
    · rw [if_pos h1]
      exact ⟨_, rfl⟩
    · rw [if_neg h1]
      rw [Bool.not_eq_true] at h1
      by_cases h2 : (getS settings "snapLength").truthy = true
      · obtain ⟨n, hn⟩ := Option.isSome_iff_exists.1 (hsnap h1 h2)
        rw [if_pos h2, hn]
        exact ⟨_, rfl⟩
      · rw [if_neg h2]
        exact ⟨_, rfl⟩
  obtain ⟨v, hv⟩ := hsl
  simp only [buildRunContext, hv]
  exact buildOk_map_mapM _ _ _
    (fun a _ => by
      obtain ⟨cmd, hc⟩ :=
        buildTcpdumpCommand_ok tcpdumpBin a settings
          (captureDir ++ "/" ++
            (if (getS settings "filenamePrefix").truthy then
              pyStr (getS settings "filenamePrefix")
             else
              slugify
                (if pyStrip (pyStr (pyOr profileName (.strV ""))) = "" then "capture"
                 else pyStrip (pyStr (pyOr profileName (.strV ""))))) ++
            "_" ++ a ++ "_" ++ timestamp ++ ".pcap")
          v.1 (calculateRingFileSizeMB settings).1
          (coercePositiveInt (getS settings "ringFileCount") 10 1 "Ring-Dateianzahl").1
          (build_bpf_filter settings) hbuf hfil
      exact ⟨_, by rw [hc]; rfl⟩)

/-- C3 witness: a well-formed profile with numeric snapLength and
bufferSize and no filter builds normally. -/
theorem C3_build_total_amended_witness :
    buildOk (buildRunContext "tcpdump" "/captures" (SVal.strV "My Profile")
      [("snapLength", SVal.intV 200), ("bufferSize", SVal.intV 4),
       ("interfaces", SVal.listV [SVal.strV "eth0", SVal.strV "eth1"])] "ts") = true :=
  C3_build_total_amended "tcpdump" "/captures" (SVal.strV "My Profile")
    [("snapLength", SVal.intV 200), ("bufferSize", SVal.intV 4),
     ("interfaces", SVal.listV [SVal.strV "eth0", SVal.strV "eth1"])] "ts"
    (fun _ _ => by decide) (fun _ _ => by decide) (Or.inl rfl)

theorem shlexSplit_raises_on_unbalanced_quote :
    shlexSplit (String.mk ['(', squoteChar, ')']) =
      .error "ValueError: No closing quotation" := by
  rfl

theorem buildRunContext_raises_on_unbalanced_quote :
    buildRunContext "tcpdump" "/captures" SVal.nullV
      [("bpfFilter", SVal.strV (String.mk [squoteChar]))] "ts" =
      .error "ValueError: No closing quotation" := by
  rfl

end NetTap
